import Mathlib

/-!
Verification of the subtitle-generation pipeline in `subgen_whisperx.py`.

Python strings are embedded as lists of characters (`PyStr`); iterating a
Python string yields its characters one by one, which is essential to the
behaviour of `post_process`. External collaborators (ffmpeg, whisperx, the
file system, CUDA) are abstracted as explicit oracle parameters of type
`Except` so that the error-propagation structure of the source is preserved
exactly.
-/

/-- A Python string, embedded as its sequence of characters. -/
abbrev PyStr := List Char

/-- Convert a Lean string literal to the embedded representation. -/
def pyOf (s : String) : PyStr := s.data

/-- Python `str.lower()` (ASCII case folding, which is all the source needs). -/
def pyLower (s : PyStr) : PyStr := s.map Char.toLower

/-- Does `s` start with `pat`? (helper for substring containment). -/
def listStartsWith : PyStr → PyStr → Bool
  | _, [] => true
  | [], _ :: _ => false
  | c :: cs, p :: ps => c == p && listStartsWith cs ps

/-- Python `pat in s` for strings: substring containment. -/
def listContains (pat : PyStr) : PyStr → Bool
  | [] => listStartsWith [] pat
  | c :: rest => listStartsWith (c :: rest) pat || listContains pat rest

/-- Everything before the last occurrence of `c`, as an `Option`
(`none` when `c` does not occur). -/
def beforeLastCharAux (c : Char) : PyStr → Option PyStr
  | [] => none
  | x :: xs =>
    match beforeLastCharAux c xs with
    | some r => some (x :: r)
    | none => if x = c then some [] else none

/-- Python `s.rsplit(c, 1)[0]`: the part of `s` before the last occurrence of
`c`, or `s` itself when `c` does not occur (`rsplit` then returns `[s]`). -/
def beforeLastChar (c : Char) (s : PyStr) : PyStr :=
  (beforeLastCharAux c s).getD s

/-- Body of the clipping loop in `post_process` (`subgen_whisperx.py`
lines 230-239), applied to one iterated element `line`:
if `len(line) > 150` then `line = line[:150].rsplit(" ", 1)[0]`.
The `except ValueError` branch of the source is unreachable: `rsplit`
returns `[s]` when the separator is absent and never raises, and
`beforeLastChar` models exactly that behaviour. -/
def clipLine (line : PyStr) : PyStr :=
  if line.length > 150 then beforeLastChar ' ' (line.take 150)
  else line

/-- `post_process` (`subgen_whisperx.py` lines 216-243). The source writes
`for line in subtitles` where `subtitles` is a `str`, so each iterated
`line` is a single character; the loop body is `clipLine`, and the results
are concatenated into `subtitles_clean`. -/
def post_process (subtitles : PyStr) : PyStr :=
  subtitles.foldl (fun subtitles_clean line => subtitles_clean ++ clipLine [line]) []

/-- Index of the last occurrence of `c` in `s`, Python `s.rfind(c)` style:
`-1` when `c` does not occur. -/
def rfindI (c : Char) (s : PyStr) : Int :=
  (List.range s.length).foldl
    (fun acc i => if s.get? i = some c then (i : Int) else acc) (-1)

/-- Python `os.path.basename` on POSIX: everything after the last slash. -/
def basename (p : PyStr) : PyStr :=
  p.drop (rfindI '/' p + 1).toNat

/-- First component of Python `os.path.splitext`: split at the last dot of
the final path component, unless every character between the last slash and
that dot is itself a dot (so dotfiles such as `.bashrc` are not split). -/
def splitextFst (p : PyStr) : PyStr :=
  let sepIndex : Int := rfindI '/' p
  let dotIndex : Int := rfindI '.' p
  if dotIndex > sepIndex then
    if ((p.drop (sepIndex + 1).toNat).take (dotIndex - sepIndex - 1).toNat).all
        (fun ch => ch = '.') then p
    else p.take dotIndex.toNat
  else p

/-- Python `os.path.dirname` on POSIX: the part up to the last slash,
with trailing slashes stripped unless the result is all slashes. -/
def dirname (p : PyStr) : PyStr :=
  let head := p.take (rfindI '/' p + 1).toNat
  if head ≠ [] ∧ ¬ head.all (fun ch => ch = '/') then
    (head.reverse.dropWhile (fun ch => ch = '/')).reverse
  else head

/-- Python `os.path.join(a, b)` on POSIX for the cases the source exercises. -/
def pathJoin (a b : PyStr) : PyStr :=
  if b.head? = some '/' then b
  else if a = [] then b
  else if a.getLast? = some '/' then a ++ b
  else a ++ ['/'] ++ b

/-- Python `str.strip()` restricted to whitespace characters. -/
def pyStrip (s : PyStr) : PyStr :=
  ((s.dropWhile Char.isWhitespace).reverse.dropWhile Char.isWhitespace).reverse

/-- Python `os.linesep` on the POSIX platforms the tool targets. -/
def pyLinesep : PyStr := ['\n']

/-- Python `str(n)` for a natural number. -/
def pyOfNat (n : Nat) : PyStr := (Nat.repr n).data

/-- The condition guarding the CUDA probe in `get_device`
(`subgen_whisperx.py` line 49):
`device_selection is None or "cuda" in device_selection.lower()`. -/
def cudaRequested : Option PyStr → Bool
  | none => true
  | some s => listContains (pyOf "cuda") (pyLower s)

/-- `get_device` (`subgen_whisperx.py` lines 29-61). The CUDA availability
probe `torch.cuda.is_available()` is passed as an oracle: `Except.ok b` when
the probe returns `b`, `Except.error e` when it raises. The source returns
`"cuda"` only when the guard holds and the probe returns true; a false
probe, a raising probe, and a preference not mentioning cuda all fall
through to `return "cpu"`. -/
def get_device (device_selection : Option PyStr) (cudaAvail : Except PyStr Bool) :
    PyStr :=
  if cudaRequested device_selection then
    match cudaAvail with
    | Except.ok true => pyOf "cuda"
    | Except.ok false => pyOf "cpu"
    | Except.error _ => pyOf "cpu"
  else pyOf "cpu"

/-- The directory-walk accumulation loop of `get_media_files`
(`subgen_whisperx.py` lines 98-103): validate every walked file with the
probe and append the valid ones, in walk order, to the accumulator. -/
def collectMedia (probe : PyStr → Bool × Bool) (files : List PyStr)
    (acc : List (PyStr × Bool)) : List (PyStr × Bool) :=
  files.foldl
    (fun media_files file_path =>
      let pa := probe file_path
      if pa.1 then media_files ++ [(file_path, pa.2)] else media_files) acc

/-- The single-file branch of `get_media_files`
(`subgen_whisperx.py` lines 109-115): append the file if the probe accepts
it, otherwise the whole call returns `None`. -/
def addFileArg (probe : PyStr → Bool × Bool) (media_files : List (PyStr × Bool)) :
    Option PyStr → Option (List (PyStr × Bool))
  | none => some media_files
  | some f =>
    let pa := probe f
    if pa.1 then some (media_files ++ [(f, pa.2)]) else none

/-- `get_media_files` (`subgen_whisperx.py` lines 84-117). The `os.walk`
traversal is abstracted as an oracle `walk` yielding the joined file paths
in walk order, and `is_media_file` as an oracle `probe` returning the pair
`(is_valid, is_audio)` (any ffmpeg probe error already yields
`(false, false)` inside `is_media_file`). When a directory is given and no
walked file is valid, the source logs and returns `None` before the
single-file branch runs. -/
def get_media_files (walk : PyStr → List PyStr) (probe : PyStr → Bool × Bool)
    (directory file : Option PyStr) : Option (List (PyStr × Bool)) :=
  match directory with
  | none => addFileArg probe [] file
  | some d =>
    let media_files := collectMedia probe (walk d) []
    if media_files.isEmpty then none
    else addFileArg probe media_files file

/-- `extract_audio` (`subgen_whisperx.py` lines 120-165). The ffmpeg
invocation is an oracle: `Except.ok ()` when the transcoding run returns,
`Except.error e` when any of the ffmpeg calls inside the `try` raises. The
source catches every exception, logs it, and still returns the path
`audio-` + basename-without-extension + `.mp3`; the second component
collects the logged error messages. -/
def extract_audio (video_path : PyStr) (ffmpegRun : Except PyStr Unit) :
    PyStr × List PyStr :=
  let extracted_audio_path :=
    pyOf "audio-" ++ splitextFst (basename video_path) ++ pyOf ".mp3"
  match ffmpegRun with
  | Except.ok _ => (extracted_audio_path, [])
  | Except.error e =>
    (extracted_audio_path,
      [pyOf "An error occurred while extracting audio: " ++ e])

/-- Zero-pad a decimal rendering to two digits. -/
def pad2 (n : Nat) : PyStr :=
  if n < 10 then '0' :: pyOfNat n else pyOfNat n

/-- Zero-pad a decimal rendering to three digits. -/
def pad3 (n : Nat) : PyStr :=
  if n < 10 then '0' :: '0' :: pyOfNat n
  else if n < 100 then '0' :: pyOfNat n
  else pyOfNat n

/-- Modelled from the spec: `timer.Timer.format_time` lives in
`utils/timer.py`, which is not part of the provided sources; per the spec it
converts seconds to the zero-padded form HH:MM:SS,mmm with no upper bound on
hours. Time is carried here as integral milliseconds (no claim under
verification depends on fractional rounding). -/
def format_time (ms : Nat) : PyStr :=
  pad2 (ms / 3600000) ++ [':'] ++ pad2 (ms % 3600000 / 60000) ++ [':'] ++
    pad2 (ms % 60000 / 1000) ++ [','] ++ pad3 (ms % 1000)

/-- One transcript segment as handed to `generate_subtitles`: the dict keys
`start`, `end` (carried as milliseconds, see `format_time`) and `text`. -/
structure Segment where
  start : Nat
  stop : Nat
  text : PyStr
deriving DecidableEq

/-- Python `enumerate(segments, start=1)`. -/
def enumerateFrom (start : Nat) : List Segment → List (Nat × Segment)
  | [] => []
  | seg :: rest => (start, seg) :: enumerateFrom (start + 1) rest

/-- The three strings appended to `srt_content` for one enumerated segment
(`subgen_whisperx.py` lines 203-211). -/
def srtBlock (i : Nat) (segment : Segment) : List PyStr :=
  [pyLinesep ++ pyOfNat i,
   format_time segment.start ++ pyOf " --> " ++ format_time segment.stop,
   pyStrip segment.text ++ pyLinesep]

/-- Python `os.linesep.join(parts)`. -/
def joinSep (sep : PyStr) : List PyStr → PyStr
  | [] => []
  | [x] => x
  | x :: y :: rest => x ++ sep ++ joinSep sep (y :: rest)

/-- `generate_subtitles` (`subgen_whisperx.py` lines 200-213): build the
flat list `srt_content` over `enumerate(segments, start=1)` and join it
with the line separator. -/
def generate_subtitles (segments : List Segment) : PyStr :=
  joinSep pyLinesep (((enumerateFrom 1 segments).map
    (fun p => srtBlock p.1 p.2)).flatten)

/-- The subtitle indices emitted by `generate_subtitles`: the first
components of `enumerate(segments, start=1)`. -/
def subtitleIndices (segments : List Segment) : List Nat :=
  (enumerateFrom 1 segments).map Prod.fst

/-- The message of the exception raised by `None.lower()`. -/
def attrErrorMsg : PyStr :=
  pyOf "AttributeError: NoneType object has no attribute lower"

/-- Models the Python attribute access `args.compute_device.lower()`
(`subgen_whisperx.py` line 326): when `--compute_device` was not passed the
parsed value is `None` and the access raises `AttributeError`. -/
def lowerOpt : Option PyStr → Except PyStr PyStr
  | none => Except.error attrErrorMsg
  | some s => Except.ok (pyLower s)

/-- The run environment of `main`: the parsed CLI values that the
per-candidate loop reads, plus the external collaborators as oracles.
`transcribeO` stands for `transcribe(audio_path, device, model_size)` and
returns `(language, segments)` or raises; `writeO` stands for opening and
writing the subtitle file at a path. -/
structure MainEnv where
  compute_device : Option PyStr
  model_size : PyStr
  cudaProbe : Except PyStr Bool
  ffmpegRun : PyStr → Except PyStr Unit
  transcribeO : PyStr → PyStr → PyStr → Except PyStr (PyStr × List Segment)
  writeO : PyStr → Except PyStr Unit

/-- The body of the per-candidate loop of `main`
(`subgen_whisperx.py` lines 309-349) for one `media_file`. Returns
`Except.ok (written, logs)` where `written` lists the subtitle files written
for this candidate and `logs` the error messages logged, or `Except.error e`
when an exception escapes the loop body (the source has no try/except
around the device lookup or the `transcribe` call; only the file write is
guarded). -/
def processCandidate (env : MainEnv) (media_file : PyStr × Bool) :
    Except PyStr (List (PyStr × PyStr) × List PyStr) :=
  let input_media_path := media_file.1
  let audio_flag := media_file.2
  let file_name := basename (beforeLastChar '.' input_media_path)
  let audio_path :=
    if audio_flag then input_media_path
    else (extract_audio input_media_path (env.ffmpegRun input_media_path)).1
  match lowerOpt env.compute_device with
  | Except.error e => Except.error e
  | Except.ok device_selection =>
    match env.transcribeO audio_path
        (get_device (some device_selection) env.cudaProbe)
        (pyLower env.model_size) with
    | Except.error e => Except.error e
    | Except.ok (language, segments) =>
      let subtitles_raw := generate_subtitles segments
      let subtitles := post_process subtitles_raw
      let subtitle_file_name :=
        file_name ++ pyOf ".ai-" ++ language ++ pyOf ".srt"
      let subtitle_path := pathJoin (dirname input_media_path) subtitle_file_name
      match env.writeO subtitle_path with
      | Except.ok _ => Except.ok ([(subtitle_path, subtitles)], [])
      | Except.error e =>
        Except.ok ([],
          [pyOf "An error occurred while writing the subtitle file: " ++ e])

/-- Outcome of a batch run: subtitle files written (path and content),
error messages logged, and the uncaught exception that aborted the loop,
if any. -/
structure RunResult where
  written : List (PyStr × PyStr)
  logs : List PyStr
  aborted : Option PyStr
deriving DecidableEq

/-- The candidate loop of `main` (`subgen_whisperx.py` lines 309-349): the
candidates are processed in order; an `Except.error` from the loop body is
an uncaught exception, so it aborts the whole loop and the remaining
candidates are never processed. -/
def mainLoop (env : MainEnv) : List (PyStr × Bool) → RunResult
  | [] => ⟨[], [], none⟩
  | media_file :: rest =>
    match processCandidate env media_file with
    | Except.error e => ⟨[], [], some e⟩
    | Except.ok (w, lgs) =>
      let r := mainLoop env rest
      ⟨w ++ r.written, lgs ++ r.logs, r.aborted⟩

/-- A rendered subtitle line of 161 characters with a single space at
position 100: the failing input for the clip-long-lines rule. -/
def longLineC1 : PyStr :=
  List.replicate 100 'a' ++ [' '] ++ List.replicate 60 'b'

/-- A directory walk yielding one valid media file, for the discovery
fixtures. -/
def walkC4 : PyStr → List PyStr := fun _ => [pyOf "d/good.mp3"]

/-- A media probe accepting exactly the file yielded by `walkC4`. -/
def probeC4 : PyStr → Bool × Bool := fun p =>
  if p = pyOf "d/good.mp3" then (true, true) else (false, false)

/-- A directory walk yielding one file, for the empty-discovery fixture. -/
def walkC9 : PyStr → List PyStr := fun _ => [pyOf "d/x.txt"]

/-- A media probe rejecting every file. -/
def probeC9 : PyStr → Bool × Bool := fun _ => (false, false)

/-- A run environment in which transcription fails for `a.mp3` and
succeeds for every other audio path; everything else succeeds. -/
def envC2 : MainEnv where
  compute_device := some (pyOf "cpu")
  model_size := pyOf "base.en"
  cudaProbe := Except.ok false
  ffmpegRun := fun _ => Except.ok ()
  transcribeO := fun audio_path _ _ =>
    if audio_path = pyOf "a.mp3" then Except.error (pyOf "transcription failed")
    else Except.ok (pyOf "en", [])
  writeO := fun _ => Except.ok ()

/-- A run environment in which `--compute_device` was not passed
(the parsed value is `None`) and every collaborator succeeds. -/
def envC10 : MainEnv where
  compute_device := none
  model_size := pyOf "base.en"
  cudaProbe := Except.ok true
  ffmpegRun := fun _ => Except.ok ()
  transcribeO := fun _ _ _ => Except.ok (pyOf "en", [])
  writeO := fun _ => Except.ok ()

lemma clipLine_singleton (c : Char) : clipLine [c] = [c] := by
  simp [clipLine]

lemma post_process_foldl (l : List Char) :
    ∀ acc : PyStr, l.foldl (fun a line => a ++ clipLine [line]) acc = acc ++ l := by
  induction l with
  | nil => intro acc; simp
  | cons c cs ih =>
    intro acc
    rw [List.foldl_cons, clipLine_singleton, ih]
    simp

/-- Shared helper: `post_process` is the identity on every string, because
the loop iterates characters and a one-character line is never longer
than 150 characters. -/
lemma post_process_eq_self (s : PyStr) : post_process s = s := by
  simpa [post_process] using post_process_foldl s []

lemma enumerateFrom_eq_zip (l : List Segment) :
    ∀ s : Nat, enumerateFrom s l = (List.range' s l.length).zip l := by
  induction l with
  | nil => intro s; rfl
  | cons a as ih =>
    intro s
    show (s, a) :: enumerateFrom (s + 1) as = _
    rw [ih (s + 1)]
    rfl

lemma collectMedia_all_invalid (probe : PyStr → Bool × Bool) (files : List PyStr)
    (h : ∀ p ∈ files, (probe p).1 = false) :
    ∀ acc, collectMedia probe files acc = acc := by
  induction files with
  | nil => intro acc; rfl
  | cons f fs ih =>
    intro acc
    have hf : (probe f).1 = false := h f (List.mem_cons_self f fs)
    have hrest : ∀ p ∈ fs, (probe p).1 = false :=
      fun p hp => h p (List.mem_cons_of_mem f hp)
    show collectMedia probe fs (if (probe f).1 then _ else acc) = acc
    rw [hf]
    simpa using ih hrest acc

/-- C3: `post_process` is the identity function on every input string,
because iterating a Python string yields characters, none of which has
length greater than 150. -/
theorem post_process_identity (s : PyStr) : post_process s = s :=
  post_process_eq_self s

set_option maxRecDepth 4000 in
/-- C1: evaluation at the failing input. The rendered line `longLineC1` is
161 characters long and has a whitespace at position 100, yet
`post_process` returns it unchanged, because the source iterates the
characters of the string rather than its lines; applying the loop body
`clipLine` to the whole line, as the source's own comment and docstring
describe, would clip it to the 100-character word-boundary part. -/
theorem post_process_long_line_unchanged :
    150 < longLineC1.length ∧
    post_process longLineC1 = longLineC1 ∧
    clipLine longLineC1 = List.replicate 100 'a' := by
  refine ⟨by decide, post_process_eq_self longLineC1, by decide⟩

/-- C8: `generate_subtitles` followed by `post_process` on the empty
segment sequence yields the empty string. -/
theorem render_postprocess_empty :
    post_process (generate_subtitles []) = pyOf "" := rfl

/-- C7: the indices emitted by `generate_subtitles` are the contiguous
integers 1, 2, ..., n where n is the number of input segments, they are as
many as the segments, they pair with the segments in input order, and the
rendered document is exactly the blocks of those pairs joined in order. -/
theorem generate_subtitles_indices (segments : List Segment) :
    subtitleIndices segments = List.range' 1 segments.length ∧
    (subtitleIndices segments).length = segments.length ∧
    (enumerateFrom 1 segments).map Prod.snd = segments ∧
    generate_subtitles segments =
      joinSep pyLinesep ((((List.range' 1 segments.length).zip segments).map
        (fun p => srtBlock p.1 p.2)).flatten) := by
  have hz := enumerateFrom_eq_zip segments 1
  have h1 : subtitleIndices segments = List.range' 1 segments.length := by
    rw [subtitleIndices, hz]
    exact List.map_fst_zip _ _ (by rw [List.length_range'])
  refine ⟨h1, ?_, ?_, ?_⟩
  · rw [h1, List.length_range']
  · rw [hz]
    exact List.map_snd_zip _ _ (by rw [List.length_range'])
  · rw [generate_subtitles, hz]

/-- C5: `get_device` is total (it always yields `cuda` or `cpu`), and for
every preference that is absent or mentions cuda case-insensitively, a
probe that returns false or raises makes it return `cpu` without
propagating the failure. -/
theorem get_device_fallback_cpu (sel : Option PyStr) (probe : Except PyStr Bool) :
    (get_device sel probe = pyOf "cuda" ∨ get_device sel probe = pyOf "cpu") ∧
    (cudaRequested sel = true →
      (probe = Except.ok false ∨ ∃ e, probe = Except.error e) →
      get_device sel probe = pyOf "cpu") := by
  constructor
  · unfold get_device
    cases cudaRequested sel with
    | false => simp
    | true =>
      cases probe with
      | error e => simp
      | ok b => cases b <;> simp
  · intro hreq hp
    unfold get_device
    rw [hreq]
    rcases hp with h | ⟨e, h⟩ <;> rw [h] <;> simp

/-- Witness for C5 at a concrete input: the preference mentions CUDA in
upper case and the probe raises, and the selected device is `cpu`. -/
theorem get_device_fallback_cpu_witness :
    get_device (some (pyOf "CUDA")) (Except.error (pyOf "probe failed")) = pyOf "cpu" :=
  (get_device_fallback_cpu (some (pyOf "CUDA")) (Except.error (pyOf "probe failed"))).2
    (by decide) (Or.inr ⟨pyOf "probe failed", rfl⟩)

/-- C9: when a directory is given and no file of the walk is valid media,
`get_media_files` returns `None` (not an empty list), whatever the `file`
argument is. -/
theorem get_media_files_empty_dir_none
    (walk : PyStr → List PyStr) (probe : PyStr → Bool × Bool)
    (d : PyStr) (file : Option PyStr)
    (h : ∀ p ∈ walk d, (probe p).1 = false) :
    get_media_files walk probe (some d) file = none := by
  have hc := collectMedia_all_invalid probe (walk d) h []
  simp [get_media_files, hc]

/-- Witness for C9 at a concrete input: a walk yielding one non-media file
makes the call return `None`. -/
theorem get_media_files_empty_dir_none_witness :
    get_media_files walkC9 probeC9 (some (pyOf "d")) none = none :=
  get_media_files_empty_dir_none walkC9 probeC9 (pyOf "d") none (fun _ _ => rfl)

/-- C4 counterexample: the directory walk yields a valid candidate
(`d/good.mp3`, accepted by the probe), the single file `bad.txt` is
invalid, and the whole call returns `None` — the directory's candidates
are not in the result, contradicting the claim. -/
theorem get_media_files_invalid_file_drops_directory :
    (probeC4 (pyOf "d/good.mp3")).1 = true ∧
    get_media_files walkC4 probeC4 (some (pyOf "d")) (some (pyOf "bad.txt")) = none := by
  exact ⟨by decide, by decide⟩

/-- C4 amended: whenever the single-file argument is given and invalid,
`get_media_files` returns `None`, discarding any candidates the directory
walk produced. -/
theorem get_media_files_invalid_file_fatal
    (walk : PyStr → List PyStr) (probe : PyStr → Bool × Bool)
    (directory : Option PyStr) (f : PyStr)
    (h : (probe f).1 = false) :
    get_media_files walk probe directory (some f) = none := by
  cases directory with
  | none => simp [get_media_files, addFileArg, h]
  | some d =>
    simp only [get_media_files]
    split
    · rfl
    · simp [addFileArg, h]

/-- Witness for the amended C4 at a concrete input. -/
theorem get_media_files_invalid_file_fatal_witness :
    get_media_files walkC4 probeC4 (some (pyOf "d")) (some (pyOf "bad.txt")) = none :=
  get_media_files_invalid_file_fatal walkC4 probeC4 (some (pyOf "d"))
    (pyOf "bad.txt") (by decide)

/-- C6: `extract_audio` returns the artifact path `audio-` + base name +
`.mp3` whatever the ffmpeg invocation does; when the invocation raises, the
same path is returned and the failure is only logged. -/
theorem extract_audio_path_deterministic (video_path : PyStr) (r : Except PyStr Unit) :
    (extract_audio video_path r).1 =
      pyOf "audio-" ++ splitextFst (basename video_path) ++ pyOf ".mp3" ∧
    (∀ e : PyStr, (extract_audio video_path (Except.error e)).1 =
        (extract_audio video_path (Except.ok ())).1 ∧
      ((extract_audio video_path (Except.error e)).2).length = 1) := by
  constructor
  · cases r <;> rfl
  · intro e
    exact ⟨rfl, rfl⟩

/-- C2 counterexample: two audio candidates, transcription fails for the
first and would succeed for the second, yet the batch aborts with the
first failure and the second candidate's subtitle is never written. -/
theorem mainLoop_transcribe_failure_no_isolation :
    envC2.transcribeO (pyOf "b.mp3") (pyOf "cpu") (pyOf "base.en") =
      Except.ok (pyOf "en", []) ∧
    mainLoop envC2 [(pyOf "a.mp3", true), (pyOf "b.mp3", true)] =
      ⟨[], [], some (pyOf "transcription failed")⟩ := by
  exact ⟨rfl, rfl⟩

/-- C2 amended: an error raised by the transcription collaborator for one
candidate escapes the loop body, so the whole batch aborts: no subtitle is
written for any candidate, later ones included, whatever the rest of the
batch is. -/
theorem main_transcribe_failure_aborts_batch
    (env : MainEnv) (path : PyStr) (rest : List (PyStr × Bool)) (sel e : PyStr)
    (hsel : env.compute_device = some sel)
    (ht : env.transcribeO path (get_device (some (pyLower sel)) env.cudaProbe)
        (pyLower env.model_size) = Except.error e) :
    (mainLoop env ((path, true) :: rest)).written = [] ∧
    (mainLoop env ((path, true) :: rest)).aborted = some e := by
  have hp : processCandidate env (path, true) = Except.error e := by
    unfold processCandidate
    rw [hsel]
    simp only [lowerOpt]
    simp only [if_true]
    rw [ht]
  constructor <;> simp [mainLoop, hp]

/-- Witness for the amended C2 at a concrete input: one candidate whose
transcription fails; nothing is written and the batch aborts. -/
theorem main_transcribe_failure_aborts_batch_witness :
    (mainLoop envC2 [(pyOf "a.mp3", true)]).written = [] ∧
    (mainLoop envC2 [(pyOf "a.mp3", true)]).aborted =
      some (pyOf "transcription failed") :=
  main_transcribe_failure_aborts_batch envC2 (pyOf "a.mp3") [] (pyOf "cpu")
    (pyOf "transcription failed") rfl rfl

/-- C10: when `--compute_device` is absent the first candidate's processing
raises the `AttributeError` from `None.lower()` and the whole batch aborts
with nothing written, for every candidate list; yet `get_device` itself
accepts an absent preference and always yields a device. -/
theorem main_none_compute_device_aborts
    (env : MainEnv) (c : PyStr × Bool) (rest : List (PyStr × Bool))
    (h : env.compute_device = none) :
    (mainLoop env (c :: rest)).aborted = some attrErrorMsg ∧
    (mainLoop env (c :: rest)).written = [] ∧
    (∀ probe : Except PyStr Bool,
      get_device none probe = pyOf "cuda" ∨ get_device none probe = pyOf "cpu") := by
  have hp : processCandidate env c = Except.error attrErrorMsg := by
    unfold processCandidate
    rw [h]
    rfl
  refine ⟨by simp [mainLoop, hp], by simp [mainLoop, hp], ?_⟩
  intro probe
  unfold get_device
  cases probe with
  | error e => simp [cudaRequested]
  | ok b => cases b <;> simp [cudaRequested]

/-- Witness for C10 at a concrete input: a single video candidate in an
environment whose compute-device preference is absent. -/
theorem main_none_compute_device_aborts_witness :
    (mainLoop envC10 [(pyOf "movie.mp4", false)]).aborted = some attrErrorMsg ∧
    (mainLoop envC10 [(pyOf "movie.mp4", false)]).written = [] ∧
    (∀ probe : Except PyStr Bool,
      get_device none probe = pyOf "cuda" ∨ get_device none probe = pyOf "cpu") :=
  main_none_compute_device_aborts envC10 (pyOf "movie.mp4", false) [] rfl
